import Mathlib

/-!
Verification development for the `heartbeat.go` monitor.

The Go program periodically probes a configured list of sites (HTTP/S,
MySQL, SQL Server), measures phase timings for HTTP probes, and sends
best-effort alert emails on failures and on secondary-threshold breaches.

This file shallowly embeds the program's pure decision logic.  Network
and SMTP effects are modelled by explicit oracle inputs (the result a
library call would have returned); wall-clock instants are modelled as
integer milliseconds.  Each definition mirrors one function (or one
phase of a function) of the Go source:

* `evalStatus`            — the status switch of `checkHTTP`/`checkHTTPx`;
* `checkHTTP`             — `checkHTTP` (the method switch, nil-response hazard);
* `checkMySQL`            — `checkMySQL` in `check_mysql.go`;
* `checkSQLServer`        — `checkSQLServer` in `check_sqlserver.go`;
* `applyTraceEvent`/`runTrace`/`resolveMillis`
                          — the `httptrace.ClientTrace` callbacks and the
                            DNS-metric derivation of the `checkHTTPx`
                            variant that backfills `tDNSDone` on
                            `ConnectStart` for literal addresses;
* `checkHTTPxPost`        — the post-response phase of `checkHTTPx`
                            (metric derivation, status switch, the three
                            secondary-threshold alert checks);
* `processUnit`           — the body of the per-site goroutine spawned by
                            `processSites`;
* `DispatchStep`          — the join protocol of `processSites` (one
                            completion signal per goroutine, counted
                            receives before returning);
* `schedulerLoop`/`runMain` — the ticker/shutdown select loop of `main`.
-/

namespace Heartbeat

/-- Mirror of the Go `HTTPConfig` struct (fields as used by the probing
functions). -/
structure HTTPConfig where
  port : Nat
  url : String
  method : String
  body : String
  accept403 : Bool
  verifyCert : Bool
deriving Repr, DecidableEq

/-- Mirror of the Go `Site` struct, with the fields the probing code
reads (`Server`, `Protocol`, `HTTPConfig`, `TimeoutMillis`,
`ConnectionTimeoutMillis`, `Recipients`). -/
structure Site where
  server : String
  protocol : String
  httpConfig : HTTPConfig
  timeoutMillis : Int
  connectionTimeoutMillis : Int
  recipients : List String
deriving Repr, DecidableEq

/-- Mirror of the Go `Config` struct (fields read by the dispatcher). -/
structure Config where
  reportDNS : Bool
  resolverTimeoutMillis : Int
  heartbeatSeconds : Nat
  sites : List Site
deriving Repr

/-- One attempted alert email: the arguments `sendGmailAlert` is invoked
with (recipients, service label, server, error text). -/
structure AlertEvent where
  recipients : List String
  svc : String
  server : String
  errMsg : String
deriving Repr, DecidableEq

/-- A structured log record emitted through `zLog`. -/
inductive LogEntry where
  | infoMs (typ server : String) (ms : Int)
  | metrics (typ server : String) (resolve connect tls processing serverTotal ttfb total : Int)
  | errMsg (typ server msg : String)
  | errStatus (typ server : String) (code : Nat) (status : String)
deriving Repr, DecidableEq

/-- The formatted message of `fmt.Errorf("HTTP error : status : %d : %s", ...)`. -/
def httpStatusMsg (code : Nat) (status : String) : String :=
  "HTTP error : status : " ++ toString code ++ " : " ++ status

/-- The status switch shared by `checkHTTP` and `checkHTTPx`:
`200` falls through, `403` falls through only when `accept403` is set,
everything else is an error carrying the code and status text. -/
def evalStatus (code : Nat) (status : String) (accept403 : Bool) : Except String Unit :=
  if code = 200 then Except.ok ()
  else if code = 403 then
    if accept403 = false then Except.error (httpStatusMsg code status)
    else Except.ok ()
  else Except.error (httpStatusMsg code status)

/-- Result of one `checkHTTP` call.  `nilDeref` marks the nil-pointer
dereference `res.Body.Close()` performs when the method switch matched
no case, so that neither `res` nor `err` was ever assigned. -/
inductive CheckHTTPResult where
  | ok
  | transportError (msg : String)
  | statusError (code : Nat) (status : String)
  | nilDeref
deriving Repr, DecidableEq

/-- A `checkHTTP` run: whether an HTTP request was issued, and how the
function exits. -/
structure CheckHTTPRun where
  requested : Bool
  result : CheckHTTPResult
deriving Repr, DecidableEq

/-- The continuation of `checkHTTP` after one of the client calls has
assigned `res, err`: the error check, `res.Body.Close()`, and the status
switch. -/
def checkHTTPAfterCall (site : Site) (netResult : Except String (Nat × String)) :
    CheckHTTPRun :=
  match netResult with
  | Except.error e => ⟨true, CheckHTTPResult.transportError ("HTTP error : " ++ e)⟩
  | Except.ok (code, status) =>
    match evalStatus code status site.httpConfig.accept403 with
    | Except.ok _ => ⟨true, CheckHTTPResult.ok⟩
    | Except.error _ => ⟨true, CheckHTTPResult.statusError code status⟩

/-- Mirror of `checkHTTP`: `res` and `err` start nil; the method switch
issues a request only for `HEAD`/`GET`/`POST` (`netResult` is the
response the network would deliver).  With no matching case neither
variable is ever assigned, the `if err != nil` check passes vacuously,
and `res.Body.Close()` faults on the nil response. -/
def checkHTTP (site : Site) (netResult : Except String (Nat × String)) : CheckHTTPRun :=
  match site.httpConfig.method with
  | "HEAD" => checkHTTPAfterCall site netResult
  | "GET" => checkHTTPAfterCall site netResult
  | "POST" => checkHTTPAfterCall site netResult
  | _ => ⟨false, CheckHTTPResult.nilDeref⟩

/-- Mirror of `checkMySQL` in `check_mysql.go`: the oracle arguments are
the errors (if any) of `sqlx.Open` and of `db.GetContext` (the latter
covers both query errors and context-deadline expiry).  Both failure
branches of the Go function format their error with the label
`action: connect to database`. -/
def checkMySQL (openRes : Option String) (queryRes : Option String) : Option String :=
  match openRes with
  | some e => some ("action: connect to database, err: " ++ e)
  | none =>
    match queryRes with
    | some e => some ("action: connect to database, err: " ++ e)
    | none => none

/-- Mirror of `checkSQLServer` in `check_sqlserver.go`: the open-error
branch is labelled `action: connect to database`, the query-error branch
`action: query database`. -/
def checkSQLServer (openRes : Option String) (queryRes : Option String) : Option String :=
  match openRes with
  | some e => some ("action: connect to database, err: " ++ e)
  | none =>
    match queryRes with
    | some e => some ("action: query database, err: " ++ e)
    | none => none

/-- Events seen by the scheduler's `select` loop in `main`: a ticker
tick, or the closing of the `done` channel by the signal goroutine. -/
inductive SchedEvent where
  | tick
  | shutdown
deriving Repr, DecidableEq

/-- The `select` loop of `main`, counting the dispatches
(`processSites` calls) it performs: a tick dispatches once and loops; a
shutdown breaks out of the loop with no further dispatch.  The loop's
sequential structure means a dispatch runs to completion before the next
event is examined. -/
def schedulerLoop : List SchedEvent → Nat
  | [] => 0
  | SchedEvent.tick :: rest => 1 + schedulerLoop rest
  | SchedEvent.shutdown :: _ => 0

/-- `main`'s dispatch count: one immediate `processSites()` call before
the loop, then `schedulerLoop` over the event sequence. -/
def runMain (evs : List SchedEvent) : Nat :=
  1 + schedulerLoop evs

/-! ## The `httptrace.ClientTrace` callbacks of `checkHTTPx`
(the variant whose `ConnectStart` callback backfills `tDNSDone` when the
DNS callbacks never fired, i.e. when connecting to a literal address).
`time.Time` is modelled as a natural number of milliseconds, with `0`
playing the role of Go's zero time (`IsZero`). -/

/-- The timestamp variables of `checkHTTPx`, all initialised to the
zero time. -/
structure TraceTimes where
  tDNSStart : Nat := 0
  tDNSDone : Nat := 0
  tConnectDone : Nat := 0
  tGotConn : Nat := 0
  tGotFirstResponseByte : Nat := 0
  tTLSHandshakeStart : Nat := 0
  tTLSHandshakeDone : Nat := 0
deriving Repr, DecidableEq

/-- One callback invocation of the client trace, tagged with the
wall-clock instant `time.Now()` would return inside the callback.
Instants delivered by the transport are positive (the Go zero time is
centuries before any run). -/
inductive TraceEvent where
  | dnsStart (t : Nat)
  | dnsDone (t : Nat)
  | connectStart (t : Nat)
  | connectDone (t : Nat)
  | gotConn (t : Nat)
  | firstByte (t : Nat)
  | tlsStart (t : Nat)
  | tlsDone (t : Nat)
deriving Repr, DecidableEq

/-- Whether an event is one of the two DNS callbacks.  Go's transport
fires `DNSStart`/`DNSDone` only when a hostname is actually resolved;
for a literal IP address neither fires. -/
def TraceEvent.isDNS : TraceEvent → Bool
  | TraceEvent.dnsStart _ => true
  | TraceEvent.dnsDone _ => true
  | _ => false

/-- The callback bodies of the `ClientTrace` literal in `checkHTTPx`:
each records `time.Now()` into its timestamp variable; `ConnectStart`
additionally backfills `tDNSDone` when it is still the zero time
(connecting to an IP address). -/
def applyTraceEvent (s : TraceTimes) : TraceEvent → TraceTimes
  | TraceEvent.dnsStart t => { s with tDNSStart := t }
  | TraceEvent.dnsDone t => { s with tDNSDone := t }
  | TraceEvent.connectStart t =>
      if s.tDNSDone = 0 then { s with tDNSDone := t } else s
  | TraceEvent.connectDone t => { s with tConnectDone := t }
  | TraceEvent.gotConn t => { s with tGotConn := t }
  | TraceEvent.firstByte t => { s with tGotFirstResponseByte := t }
  | TraceEvent.tlsStart t => { s with tTLSHandshakeStart := t }
  | TraceEvent.tlsDone t => { s with tTLSHandshakeDone := t }

/-- The timestamp state after the transport has fired a sequence of
trace callbacks. -/
def runTrace (evs : List TraceEvent) : TraceTimes :=
  evs.foldl applyTraceEvent {}

/-- The DNS metric derivation after the request completes: the code sets
`tDNSStart = tDNSDone` when `tDNSStart.IsZero()`, then reports
`tDNSDone.Sub(tDNSStart)` in milliseconds. -/
def resolveMillis (s : TraceTimes) : Int :=
  let start := if s.tDNSStart = 0 then s.tDNSDone else s.tDNSStart
  (s.tDNSDone : Int) - (start : Int)

/-! ## The post-response phase of the `checkHTTPx` variant with the
three secondary-threshold checks.  Timestamps captured by its trace are
passed in as integer milliseconds; the derived metrics follow the
source's subtraction formulas. -/

/-- The wall-clock instants `checkHTTPx` has captured once
`RoundTrip` returns: `start` just before the call, the trace-callback
instants, and the implicit completion instant of `time.Since(start)`. -/
structure HTTPxTimes where
  start : Int
  tDNSStart : Int
  tDNSDone : Int
  tConnectStart : Int
  tConnectDone : Int
  tTLSStart : Int
  tTLSDone : Int
  tFirstByte : Int
  tEnd : Int
deriving Repr, DecidableEq

/-- `tResolve := tDNSDone.Sub(tDNSStart).Milliseconds()`. -/
def HTTPxTimes.resolveMs (t : HTTPxTimes) : Int := t.tDNSDone - t.tDNSStart

/-- `tConnection := tConnectDone.Sub(tConnectStart).Milliseconds()`. -/
def HTTPxTimes.connectionMs (t : HTTPxTimes) : Int := t.tConnectDone - t.tConnectStart

/-- `tTLS := tTLSDone.Sub(tTLSStart).Milliseconds()`. -/
def HTTPxTimes.tlsMs (t : HTTPxTimes) : Int := t.tTLSDone - t.tTLSStart

/-- `ttfb := tFirstByte.Sub(start).Milliseconds()`. -/
def HTTPxTimes.ttfbMs (t : HTTPxTimes) : Int := t.tFirstByte - t.start

/-- `tProcessing := ttfb - tTLS - tConnection - tResolve`. -/
def HTTPxTimes.processingMs (t : HTTPxTimes) : Int :=
  t.ttfbMs - t.tlsMs - t.connectionMs - t.resolveMs

/-- `tServer := tConnection + tTLS + tProcessing`. -/
def HTTPxTimes.serverMs (t : HTTPxTimes) : Int :=
  t.connectionMs + t.tlsMs + t.processingMs

/-- `tTotal := time.Since(start).Milliseconds()`. -/
def HTTPxTimes.totalMs (t : HTTPxTimes) : Int := t.tEnd - t.start

/-- The DNS secondary-threshold alert of `checkHTTPx`. -/
def dnsAlertEvent (conf : Config) (site : Site) (t : HTTPxTimes) : AlertEvent :=
  ⟨site.recipients, "dns", site.server,
    "DNS resolution time limit (" ++ toString conf.resolverTimeoutMillis ++
      ") exceeded: " ++ toString t.resolveMs ++ " ms"⟩

/-- The connection-phase secondary-threshold alert of `checkHTTPx`. -/
def connAlertEvent (site : Site) (t : HTTPxTimes) : AlertEvent :=
  ⟨site.recipients, "connection + TLS", site.server,
    "connection + TLS time limit (" ++ toString site.connectionTimeoutMillis ++
      ") exceeded: " ++ toString (t.connectionMs + t.tlsMs) ++ " ms"⟩

/-- The processing-time secondary-threshold alert of `checkHTTPx`. -/
def procAlertEvent (site : Site) (t : HTTPxTimes) : AlertEvent :=
  ⟨site.recipients, site.protocol, site.server,
    "processing time limit (" ++ toString site.timeoutMillis ++
      ") exceeded: " ++ toString t.processingMs ++ " ms"⟩

/-- Logs produced by the `if dErr != nil` checks after each
`sendGmailAlert` call: the k-th attempted send consults the SMTP oracle
`alertRes k`, and a failure is recorded as an `alert` error log. -/
def alertFailLogs (alertRes : Nat → Option String) (server : String) :
    List AlertEvent → List LogEntry
  | evs =>
    (List.range evs.length).filterMap fun k =>
      match alertRes k with
      | some d => some (LogEntry.errMsg "alert" server d)
      | none => none

/-- Outcome of the post-response phase of `checkHTTPx`. -/
structure HTTPxResult where
  result : Except String Unit
  alerts : List AlertEvent
  logs : List LogEntry
deriving Repr

/-- The tail of `checkHTTPx` reached only by falling through the status
switch: `writeInfo()` followed by the three secondary-threshold checks,
each sending its own alert on breach, each send failure merely logged;
the function then returns nil. -/
def checkHTTPxTail (conf : Config) (site : Site) (t : HTTPxTimes)
    (alertRes : Nat → Option String) : HTTPxResult :=
  let infoLog := LogEntry.metrics site.protocol site.server t.resolveMs t.connectionMs
    t.tlsMs t.processingMs t.serverMs t.ttfbMs t.totalMs
  let a1 := if t.resolveMs ≥ conf.resolverTimeoutMillis then [dnsAlertEvent conf site t] else []
  let a2 :=
    if t.connectionMs + t.tlsMs ≥ site.connectionTimeoutMillis then [connAlertEvent site t]
    else []
  let a3 := if t.processingMs ≥ site.timeoutMillis then [procAlertEvent site t] else []
  let alerts := a1 ++ a2 ++ a3
  ⟨Except.ok (), alerts, infoLog :: alertFailLogs alertRes site.server alerts⟩

/-- The post-response phase of `checkHTTPx`: derive the metrics, run the
status switch (`200` falls through; `403` falls through only with
`accept403`, else `writeError2` and return; any other status likewise),
and only on fall-through run the threshold checks of
`checkHTTPxTail`. -/
def checkHTTPxPost (conf : Config) (site : Site) (t : HTTPxTimes)
    (code : Nat) (status : String) (alertRes : Nat → Option String) : HTTPxResult :=
  if code = 200 then checkHTTPxTail conf site t alertRes
  else if code = 403 then
    if site.httpConfig.accept403 = false then
      ⟨Except.error (httpStatusMsg code status), [],
        [LogEntry.errStatus site.protocol site.server code status]⟩
    else checkHTTPxTail conf site t alertRes
  else
    ⟨Except.error (httpStatusMsg code status), [],
      [LogEntry.errStatus site.protocol site.server code status]⟩

/-! ## The per-site goroutine body of `processSites` -/

/-- Oracle for the external effects one per-site goroutine performs:
whether `net.ParseIP(site.Server)` is non-nil, the result of
`resolveServer` and its measured duration, the result of `isServerUp`,
and the result of the k-th `sendGmailAlert` call. -/
structure UnitEnv where
  isLiteral : Bool
  resolveErr : Option String
  resolveDurMs : Int
  probeErr : Option String
  alertRes : Nat → Option String

/-- Classification of what one goroutine's run amounted to: a DNS
resolution failure (protocol probe skipped), a protocol-probe failure,
or success. -/
inductive UnitOutcome where
  | dnsFailure (msg : String)
  | probeFailure (msg : String)
  | success
deriving Repr, DecidableEq

/-- Observable summary of one per-site goroutine: whether
`resolveServer` was invoked, whether `isServerUp` was invoked, the
outcome, every attempted `sendGmailAlert` call in order, and the log
records written. -/
structure UnitResult where
  resolved : Bool
  probed : Bool
  outcome : UnitOutcome
  sends : List AlertEvent
  logs : List LogEntry
deriving Repr, DecidableEq

/-- The `isServerUp` step at the end of the goroutine body: on error,
one alert is sent (the send being the k-th of the goroutine) and a send
failure is only logged. -/
def probeStep (site : Site) (env : UnitEnv) (k : Nat) :
    UnitOutcome × List AlertEvent × List LogEntry :=
  match env.probeErr with
  | some e =>
    let ev : AlertEvent := ⟨site.recipients, site.protocol, site.server, e⟩
    let failLog :=
      match env.alertRes k with
      | some d => [LogEntry.errMsg "alert" site.server d]
      | none => []
    (UnitOutcome.probeFailure e, [ev], failLog)
  | none => (UnitOutcome.success, [], [])

/-- The body of the goroutine `processSites` spawns per site (the
variant gated on `conf.ReportDNS`): for a non-literal server it first
resolves the name — on failure it logs, alerts, and returns without
probing; on success it logs the duration and, when the duration reaches
the resolver budget, sends a secondary-threshold alert — and in every
surviving path it runs `isServerUp`, alerting on probe failure.  Every
`sendGmailAlert` failure is logged and swallowed. -/
def processUnit (conf : Config) (site : Site) (env : UnitEnv) : UnitResult :=
  if conf.reportDNS then
    if env.isLiteral then
      let (o, s, l) := probeStep site env 0
      ⟨false, true, o, s, l⟩
    else
      match env.resolveErr with
      | some e =>
        let ev : AlertEvent := ⟨site.recipients, "dns", site.server, e⟩
        let failLog :=
          match env.alertRes 0 with
          | some d => [LogEntry.errMsg "alert" site.server d]
          | none => []
        ⟨true, false, UnitOutcome.dnsFailure e, [ev],
          LogEntry.errMsg "dns" site.server e :: failLog⟩
      | none =>
        let durLog := LogEntry.infoMs "dns" site.server env.resolveDurMs
        if env.resolveDurMs ≥ conf.resolverTimeoutMillis then
          let sErrMsg :=
            "DNS resolution time limit exceeded: " ++ toString env.resolveDurMs ++ " ms"
          let ev : AlertEvent := ⟨site.recipients, "dns", site.server, sErrMsg⟩
          let failLog :=
            match env.alertRes 0 with
            | some d => [LogEntry.errMsg "alert" site.server d]
            | none => []
          let (o, s, l) := probeStep site env 1
          ⟨true, true, o, ev :: s, durLog :: (failLog ++ l)⟩
        else
          let (o, s, l) := probeStep site env 0
          ⟨true, true, o, s, durLog :: l⟩
  else
    let (o, s, l) := probeStep site env 0
    ⟨false, true, o, s, l⟩

/-- The outcome list of one tick: `processSites` ranges over
`conf.Sites` and spawns exactly one goroutine per listed site; `envs`
supplies each site's effect oracle. -/
def processSitesOutcomes (conf : Config) (envs : Site → UnitEnv) : List UnitOutcome :=
  conf.sites.map fun site => (processUnit conf site (envs site)).outcome

/-! ## The join protocol of `processSites`

`processSites` creates an unbuffered channel, spawns one goroutine per
site whose deferred statement sends exactly one completion signal, and
then performs `len(sites)` receives before returning.  The state
machine below tracks, per spawned goroutine, whether its completion
signal has been consumed (`true`) and how many signals the dispatcher
has received. -/

/-- Join state of one tick: one flag per spawned goroutine (`true` once
its completion signal has been received) and the dispatcher's receive
count. -/
structure DispatchState where
  units : List Bool
  received : Nat
deriving Repr, DecidableEq

/-- The state right after the spawn loop: one still-running goroutine
per site, no signal received. -/
def initDispatch (n : Nat) : DispatchState :=
  ⟨List.replicate n false, 0⟩

/-- One interleaving step: some still-running goroutine finishes its
body and its deferred `ch <- true` rendezvouses with one of the
dispatcher's receives (the channel is unbuffered, so the send completes
exactly when a receive consumes it). -/
inductive DispatchStep : DispatchState → DispatchState → Prop where
  | join (s : DispatchState) (i : Nat) (h : i < s.units.length)
      (hrun : s.units.get ⟨i, h⟩ = false) :
      DispatchStep s ⟨s.units.set i true, s.received + 1⟩

/-! ## Concrete sample values used to instantiate the theorems -/

/-- A plain GET configuration. -/
def sampleHTTPConfig : HTTPConfig :=
  ⟨0, "", "GET", "", false, false⟩

/-- An HTTP site on a literal address with one alert recipient. -/
def sampleSite : Site :=
  { server := "10.0.0.1", protocol := "http", httpConfig := sampleHTTPConfig,
    timeoutMillis := 5000, connectionTimeoutMillis := 1000,
    recipients := ["ops@example.test"] }

/-- `sampleSite` with an empty recipients list. -/
def emptyRecipientsSite : Site :=
  { sampleSite with recipients := [] }

/-- `sampleSite` accepting HTTP 403. -/
def accept403Site : Site :=
  { sampleSite with httpConfig := { sampleHTTPConfig with accept403 := true } }

/-- `sampleSite` with an HTTP method outside the `checkHTTP` switch. -/
def putMethodSite : Site :=
  { sampleSite with httpConfig := { sampleHTTPConfig with method := "PUT" } }

/-- A configuration with DNS reporting on, a 500 ms resolver budget and
one site. -/
def sampleConf : Config :=
  { reportDNS := true, resolverTimeoutMillis := 500, heartbeatSeconds := 60,
    sites := [sampleSite] }

/-- An SMTP oracle under which every alert send succeeds. -/
def noAlertErr : Nat → Option String := fun _ => none

/-- A goroutine oracle for a literal-address site whose probe succeeds. -/
def sampleEnvOK : UnitEnv :=
  ⟨true, none, 0, none, noAlertErr⟩

/-- A goroutine oracle for a literal-address site whose probe fails with
an HTTP 500 status error. -/
def sampleEnvProbeFail : UnitEnv :=
  ⟨true, none, 0, some "HTTP error : status : 500 : 500 Internal Server Error", noAlertErr⟩

/-- A goroutine oracle for a hostname site whose DNS resolution fails. -/
def sampleEnvDNSFail : UnitEnv :=
  ⟨false, some "lookup failed", 0, none, noAlertErr⟩

/-- Timestamps of a probe whose DNS phase took 600 ms (breaching the
500 ms resolver budget of `sampleConf`) while the other phases stayed
within budget. -/
def dnsBreachTimes : HTTPxTimes :=
  { start := 0, tDNSStart := 0, tDNSDone := 600, tConnectStart := 600,
    tConnectDone := 610, tTLSStart := 610, tTLSDone := 620,
    tFirstByte := 700, tEnd := 720 }

/-- Timestamps of a probe breaching all three secondary thresholds of
`sampleConf`/`sampleSite`. -/
def allBreachTimes : HTTPxTimes :=
  { start := 0, tDNSStart := 0, tDNSDone := 600, tConnectStart := 600,
    tConnectDone := 1200, tTLSStart := 1200, tTLSDone := 1800,
    tFirstByte := 9000, tEnd := 9100 }

/-- A trace of a literal-address connection: the transport fires no DNS
callback, so `ConnectStart` backfills `tDNSDone`. -/
def literalTrace : List TraceEvent :=
  [TraceEvent.connectStart 5, TraceEvent.connectDone 9,
   TraceEvent.gotConn 9, TraceEvent.firstByte 30]

/-! ## Helper lemmas -/

/-- Setting a still-false flag to true raises the true-count by one. -/
theorem count_true_set (l : List Bool) (i : Nat) (h : i < l.length)
    (hf : l.get ⟨i, h⟩ = false) :
    (l.set i true).count true = l.count true + 1 := by
  induction l generalizing i with
  | nil => simp at h
  | cons a rest ih =>
    cases i with
    | zero =>
      simp only [List.get] at hf
      subst hf
      simp [List.count_cons]
    | succ j =>
      have hj : j < rest.length := by simpa using h
      have hf2 : rest.get ⟨j, hj⟩ = false := by simpa using hf
      simp only [List.set, List.count_cons, ih j hj hf2]
      omega

/-- Join invariant of `processSites`: the unit list keeps its length,
and the dispatcher's receive count always equals the number of
goroutines whose completion signal has been consumed.  Each goroutine
signals at most once because a flag, once true, can never be chosen by
`DispatchStep.join` again. -/
theorem dispatch_inv {n : Nat} {s : DispatchState}
    (h : Relation.ReflTransGen DispatchStep (initDispatch n) s) :
    s.units.length = n ∧ s.received = s.units.count true := by
  induction h with
  | refl => refine ⟨by simp [initDispatch], by simp [initDispatch, List.count_replicate]⟩
  | tail hab hstep ih =>
    cases hstep with
    | join i hi hrun =>
      refine ⟨by simpa [List.length_set] using ih.1, ?_⟩
      dsimp only
      rw [count_true_set _ i hi hrun]
      have h2 := ih.2
      omega

/-- Up to the first shutdown event, the `select` loop performs exactly
one dispatch per tick event. -/
theorem schedulerLoop_ticks (pre post : List SchedEvent)
    (h : SchedEvent.shutdown ∉ pre) :
    schedulerLoop (pre ++ SchedEvent.shutdown :: post) = pre.count SchedEvent.tick := by
  induction pre with
  | nil => simp [schedulerLoop]
  | cons a rest ih =>
    cases a with
    | tick =>
      have h2 : SchedEvent.shutdown ∉ rest := fun hm => h (List.mem_cons_of_mem _ hm)
      have h3 := ih h2
      simp only [List.cons_append, schedulerLoop, List.count_cons]
      simp
      omega
    | shutdown => exact absurd (List.mem_cons_self _ _) h

/-- A fold of trace callbacks none of which is a DNS callback leaves
`tDNSStart` untouched. -/
theorem foldl_trace_tDNSStart (evs : List TraceEvent) (s : TraceTimes)
    (h : ∀ ev ∈ evs, ev.isDNS = false) :
    (evs.foldl applyTraceEvent s).tDNSStart = s.tDNSStart := by
  induction evs generalizing s with
  | nil => rfl
  | cons ev rest ih =>
    have hrest : ∀ e ∈ rest, e.isDNS = false := fun e he => h e (List.mem_cons_of_mem _ he)
    have hev : ev.isDNS = false := h ev (List.mem_cons_self _ _)
    rw [List.foldl_cons, ih _ hrest]
    cases ev with
    | dnsStart t => simp [TraceEvent.isDNS] at hev
    | dnsDone t => simp [TraceEvent.isDNS] at hev
    | connectStart t =>
      by_cases h0 : s.tDNSDone = 0 <;> simp [applyTraceEvent, h0]
    | connectDone t => rfl
    | gotConn t => rfl
    | firstByte t => rfl
    | tlsStart t => rfl
    | tlsDone t => rfl

/-- The fall-through tail of `checkHTTPx` always returns nil. -/
theorem checkHTTPxTail_result (conf : Config) (site : Site) (t : HTTPxTimes)
    (f : Nat → Option String) :
    (checkHTTPxTail conf site t f).result = Except.ok () := rfl

/-- The alerts produced by the fall-through tail of `checkHTTPx` do not
depend on the SMTP oracle. -/
theorem checkHTTPxTail_alerts (conf : Config) (site : Site) (t : HTTPxTimes)
    (f g : Nat → Option String) :
    (checkHTTPxTail conf site t f).alerts = (checkHTTPxTail conf site t g).alerts := rfl

/-! ## Claim theorems -/

/-- C1: per tick, `processSites` launches one unit of work per
configured site, each unit yields exactly one outcome
(`processSitesOutcomes` has exactly one entry per listed site), and the
dispatcher performs one channel receive per site before returning: in
any interleaving of the join protocol in which those receives have
completed (`received` equals the site count), every spawned goroutine
has finished and signalled — no unit is left running across ticks. -/
theorem processSites_one_outcome_per_site_and_full_join
    (conf : Config) (envs : Site → UnitEnv) (s : DispatchState)
    (h : Relation.ReflTransGen DispatchStep (initDispatch conf.sites.length) s)
    (hret : s.received = conf.sites.length) :
    (processSitesOutcomes conf envs).length = conf.sites.length ∧
    s.units.length = conf.sites.length ∧
    ∀ b ∈ s.units, b = true := by
  obtain ⟨hlen, hcount⟩ := dispatch_inv h
  refine ⟨by simp [processSitesOutcomes], hlen, ?_⟩
  have hc : s.units.count true = s.units.length := by omega
  intro b hb
  exact (List.count_eq_length.mp hc b hb).symm

/-- C1 witness: a concrete one-site tick whose single goroutine joins
after one step. -/
theorem processSites_one_outcome_per_site_and_full_join_witness :
    (processSitesOutcomes sampleConf fun _ => sampleEnvOK).length = sampleConf.sites.length ∧
    (DispatchState.mk [true] 1).units.length = sampleConf.sites.length ∧
    ∀ b ∈ (DispatchState.mk [true] 1).units, b = true :=
  processSites_one_outcome_per_site_and_full_join sampleConf (fun _ => sampleEnvOK)
    ⟨[true], 1⟩
    (Relation.ReflTransGen.single
      (DispatchStep.join (initDispatch sampleConf.sites.length) 0 (by decide) (by decide)))
    rfl

/-- C3: for a site whose server parses as a literal IP address the
dispatcher goroutine never invokes `resolveServer`, and the HTTP probe's
trace — in which the transport fires no DNS callback for a literal
address — reports a resolve time of zero, the metric code backfilling
the missing DNS timestamps so that the effective DNS-start and DNS-done
instants coincide. -/
theorem literal_address_skips_dns_and_reports_zero
    (conf : Config) (site : Site) (env : UnitEnv) (evs : List TraceEvent)
    (hlit : env.isLiteral = true)
    (hdns : ∀ ev ∈ evs, ev.isDNS = false) :
    (processUnit conf site env).resolved = false ∧
    resolveMillis (runTrace evs) = 0 := by
  constructor
  · by_cases hr : conf.reportDNS <;>
      cases hpe : env.probeErr <;>
        simp [processUnit, probeStep, hlit, hr, hpe]
  · have h0 : (runTrace evs).tDNSStart = 0 := foldl_trace_tDNSStart evs {} hdns
    simp [resolveMillis, h0]

/-- C3 witness: the sample literal-address site and a literal-connection
trace. -/
theorem literal_address_skips_dns_and_reports_zero_witness :
    (processUnit sampleConf sampleSite sampleEnvOK).resolved = false ∧
    resolveMillis (runTrace literalTrace) = 0 :=
  literal_address_skips_dns_and_reports_zero sampleConf sampleSite sampleEnvOK literalTrace
    rfl (by decide)

/-- C4: status evaluation of a completed HTTP probe — 200 yields
success; 403 yields success exactly when the site accepts 403; any other
status yields the failure carrying the status code and text. -/
theorem http_status_evaluation (conf : Config) (site : Site) (t : HTTPxTimes)
    (status : String) (f : Nat → Option String) (code : Nat) :
    (code = 200 → (checkHTTPxPost conf site t code status f).result = Except.ok ()) ∧
    (code = 403 →
      ((checkHTTPxPost conf site t code status f).result = Except.ok () ↔
        site.httpConfig.accept403 = true)) ∧
    (code ≠ 200 → code ≠ 403 →
      (checkHTTPxPost conf site t code status f).result =
        Except.error (httpStatusMsg code status)) := by
  refine ⟨?_, ?_, ?_⟩
  · intro h
    subst h
    simp [checkHTTPxPost, checkHTTPxTail_result]
  · intro h
    subst h
    cases hac : site.httpConfig.accept403 <;>
      simp [checkHTTPxPost, hac, checkHTTPxTail_result]
  · intro h1 h2
    simp [checkHTTPxPost, h1, h2]

/-- C4 witness: a 403 response on a site accepting 403 yields
success. -/
theorem http_status_evaluation_witness :
    (checkHTTPxPost sampleConf accept403Site dnsBreachTimes 403 "403 Forbidden" noAlertErr).result
      = Except.ok () :=
  ((http_status_evaluation sampleConf accept403Site dnsBreachTimes "403 Forbidden"
      noAlertErr 403).2.1 rfl).mpr rfl

/-- C5: for a non-literal site whose DNS resolution fails, the goroutine
logs the failure, sends one DNS alert to the site's recipients, and
returns without running the protocol probe for that tick. -/
theorem dns_failure_skips_probe (conf : Config) (site : Site) (env : UnitEnv) (e : String)
    (hr : conf.reportDNS = true) (hl : env.isLiteral = false)
    (he : env.resolveErr = some e) :
    (processUnit conf site env).probed = false ∧
    (processUnit conf site env).outcome = UnitOutcome.dnsFailure e ∧
    (processUnit conf site env).sends = [⟨site.recipients, "dns", site.server, e⟩] ∧
    LogEntry.errMsg "dns" site.server e ∈ (processUnit conf site env).logs := by
  simp [processUnit, hr, hl, he]

/-- C5 witness: a hostname site whose lookup fails. -/
theorem dns_failure_skips_probe_witness :
    (processUnit sampleConf sampleSite sampleEnvDNSFail).probed = false ∧
    (processUnit sampleConf sampleSite sampleEnvDNSFail).outcome =
      UnitOutcome.dnsFailure "lookup failed" ∧
    (processUnit sampleConf sampleSite sampleEnvDNSFail).sends =
      [⟨sampleSite.recipients, "dns", sampleSite.server, "lookup failed"⟩] ∧
    LogEntry.errMsg "dns" sampleSite.server "lookup failed" ∈
      (processUnit sampleConf sampleSite sampleEnvDNSFail).logs :=
  dns_failure_skips_probe sampleConf sampleSite sampleEnvDNSFail "lookup failed" rfl rfl rfl

/-- C2 counterexample: a completed probe whose DNS phase took 600 ms —
breaching the 500 ms resolver budget — but whose status is 500 produces
no alert at all: the early return of the status switch skips every
secondary-threshold check, so the thresholds are not checked
independently of the primary outcome. -/
theorem checkHTTPx_thresholds_skipped_on_failure :
    dnsBreachTimes.resolveMs ≥ sampleConf.resolverTimeoutMillis ∧
    (checkHTTPxPost sampleConf sampleSite dnsBreachTimes 500 "500 Internal Server Error"
      noAlertErr).alerts = [] ∧
    (checkHTTPxPost sampleConf sampleSite dnsBreachTimes 500 "500 Internal Server Error"
      noAlertErr).result =
      Except.error (httpStatusMsg 500 "500 Internal Server Error") :=
  ⟨by decide, rfl, rfl⟩

/-- C2 (amended): after a completed HTTP probe whose status evaluation
falls through (200, or 403 with `accept403` set), the three secondary
thresholds are each checked — resolve time against the resolver budget,
connect-plus-TLS time against the connection budget, processing time
against the protocol budget — each breach contributes exactly its own
alert, and the probe's primary outcome remains success (nil) regardless
of the breaches. -/
theorem checkHTTPx_secondary_thresholds_on_success
    (conf : Config) (site : Site) (t : HTTPxTimes) (status : String)
    (f : Nat → Option String) (code : Nat)
    (hs : code = 200 ∨ (code = 403 ∧ site.httpConfig.accept403 = true)) :
    (checkHTTPxPost conf site t code status f).result = Except.ok () ∧
    (checkHTTPxPost conf site t code status f).alerts =
      (if t.resolveMs ≥ conf.resolverTimeoutMillis then [dnsAlertEvent conf site t] else []) ++
      (if t.connectionMs + t.tlsMs ≥ site.connectionTimeoutMillis then [connAlertEvent site t]
       else []) ++
      (if t.processingMs ≥ site.timeoutMillis then [procAlertEvent site t] else []) := by
  rcases hs with h | ⟨h, hac⟩
  · subst h
    exact ⟨rfl, rfl⟩
  · subst h
    simp [checkHTTPxPost, hac, checkHTTPxTail]

/-- C2 witness: a 200 response breaching all three thresholds. -/
theorem checkHTTPx_secondary_thresholds_on_success_witness :
    (checkHTTPxPost sampleConf sampleSite allBreachTimes 200 "200 OK" noAlertErr).result =
      Except.ok () ∧
    (checkHTTPxPost sampleConf sampleSite allBreachTimes 200 "200 OK" noAlertErr).alerts =
      (if allBreachTimes.resolveMs ≥ sampleConf.resolverTimeoutMillis then
        [dnsAlertEvent sampleConf sampleSite allBreachTimes] else []) ++
      (if allBreachTimes.connectionMs + allBreachTimes.tlsMs ≥
          sampleSite.connectionTimeoutMillis then
        [connAlertEvent sampleSite allBreachTimes] else []) ++
      (if allBreachTimes.processingMs ≥ sampleSite.timeoutMillis then
        [procAlertEvent sampleSite allBreachTimes] else []) :=
  checkHTTPx_secondary_thresholds_on_success sampleConf sampleSite allBreachTimes "200 OK"
    noAlertErr 200 (Or.inl rfl)

/-- C6 counterexample: a MySQL query failure (for instance a context
deadline expiry) produces exactly the same error as a MySQL connection
failure — both are labelled `action: connect to database` — so the two
kinds are not distinguishable in the returned error. -/
theorem mysql_error_kinds_indistinguishable :
    checkMySQL none (some "context deadline exceeded") =
      some "action: connect to database, err: context deadline exceeded" ∧
    checkMySQL (some "context deadline exceeded") none =
      checkMySQL none (some "context deadline exceeded") :=
  ⟨rfl, rfl⟩

/-- C6 (amended): for SQL Server probes a connection-establishment
failure and a query (or deadline) failure carry distinct labels and are
distinguishable; for MySQL probes both failure paths return identical
`action: connect to database` errors. -/
theorem sql_error_kinds (e : String) :
    checkSQLServer (some e) none = some ("action: connect to database, err: " ++ e) ∧
    checkSQLServer none (some e) = some ("action: query database, err: " ++ e) ∧
    ("action: connect to database, err: " ++ e) ≠ ("action: query database, err: " ++ e) ∧
    checkMySQL (some e) none = checkMySQL none (some e) := by
  refine ⟨rfl, rfl, ?_, rfl⟩
  intro h
  have h2 := congrArg String.length h
  have l1 : ("action: connect to database, err: " : String).length = 34 := rfl
  have l2 : ("action: query database, err: " : String).length = 29 := rfl
  rw [String.length_append, String.length_append, l1, l2] at h2
  omega

/-- C6 witness: the amended statement at a concrete error text. -/
theorem sql_error_kinds_witness :
    checkSQLServer (some "context deadline exceeded") none =
      some ("action: connect to database, err: " ++ "context deadline exceeded") ∧
    checkSQLServer none (some "context deadline exceeded") =
      some ("action: query database, err: " ++ "context deadline exceeded") ∧
    ("action: connect to database, err: " ++ "context deadline exceeded") ≠
      ("action: query database, err: " ++ "context deadline exceeded") ∧
    checkMySQL (some "context deadline exceeded") none =
      checkMySQL none (some "context deadline exceeded") :=
  sql_error_kinds "context deadline exceeded"

/-- C7: the result of every alert send attempt is invisible to the probe
path — replacing the SMTP oracle changes neither a goroutine's outcome,
nor whether it probed, nor the sequence of send attempts (no retry), nor
the result or alerts of the HTTP probe's post-response phase. -/
theorem alert_send_failure_never_propagates
    (conf : Config) (site : Site) (env : UnitEnv) (f g : Nat → Option String)
    (t : HTTPxTimes) (code : Nat) (status : String) :
    (processUnit conf site { env with alertRes := f }).outcome =
      (processUnit conf site { env with alertRes := g }).outcome ∧
    (processUnit conf site { env with alertRes := f }).sends =
      (processUnit conf site { env with alertRes := g }).sends ∧
    (processUnit conf site { env with alertRes := f }).probed =
      (processUnit conf site { env with alertRes := g }).probed ∧
    (checkHTTPxPost conf site t code status f).result =
      (checkHTTPxPost conf site t code status g).result ∧
    (checkHTTPxPost conf site t code status f).alerts =
      (checkHTTPxPost conf site t code status g).alerts := by
  obtain ⟨il, re, rd, pe, ar⟩ := env
  refine ⟨?_, ?_, ?_, ?_, ?_⟩
  · cases il <;> cases re <;> cases pe <;> by_cases hr : conf.reportDNS <;>
      by_cases hd : rd ≥ conf.resolverTimeoutMillis <;>
        simp [processUnit, probeStep, hr, hd]
  · cases il <;> cases re <;> cases pe <;> by_cases hr : conf.reportDNS <;>
      by_cases hd : rd ≥ conf.resolverTimeoutMillis <;>
        simp [processUnit, probeStep, hr, hd]
  · cases il <;> cases re <;> cases pe <;> by_cases hr : conf.reportDNS <;>
      by_cases hd : rd ≥ conf.resolverTimeoutMillis <;>
        simp [processUnit, probeStep, hr, hd]
  · by_cases h200 : code = 200 <;> by_cases h403 : code = 403 <;>
      cases hac : site.httpConfig.accept403 <;>
        simp [checkHTTPxPost, h200, h403, hac, checkHTTPxTail_result]
  · by_cases h200 : code = 200 <;> by_cases h403 : code = 403 <;>
      cases hac : site.httpConfig.accept403 <;>
        simp [checkHTTPxPost, h200, h403, hac] <;>
          exact checkHTTPxTail_alerts conf site t f g

/-- C7 witness: a failing-probe goroutine under a succeeding and under a
failing SMTP oracle. -/
theorem alert_send_failure_never_propagates_witness :
    (processUnit sampleConf sampleSite
        { sampleEnvProbeFail with alertRes := noAlertErr }).outcome =
      (processUnit sampleConf sampleSite
        { sampleEnvProbeFail with alertRes := fun _ => some "smtp: authentication failed" }).outcome ∧
    (processUnit sampleConf sampleSite
        { sampleEnvProbeFail with alertRes := noAlertErr }).sends =
      (processUnit sampleConf sampleSite
        { sampleEnvProbeFail with alertRes := fun _ => some "smtp: authentication failed" }).sends ∧
    (processUnit sampleConf sampleSite
        { sampleEnvProbeFail with alertRes := noAlertErr }).probed =
      (processUnit sampleConf sampleSite
        { sampleEnvProbeFail with alertRes := fun _ => some "smtp: authentication failed" }).probed ∧
    (checkHTTPxPost sampleConf sampleSite dnsBreachTimes 200 "200 OK" noAlertErr).result =
      (checkHTTPxPost sampleConf sampleSite dnsBreachTimes 200 "200 OK"
        (fun _ => some "smtp: authentication failed")).result ∧
    (checkHTTPxPost sampleConf sampleSite dnsBreachTimes 200 "200 OK" noAlertErr).alerts =
      (checkHTTPxPost sampleConf sampleSite dnsBreachTimes 200 "200 OK"
        (fun _ => some "smtp: authentication failed")).alerts :=
  alert_send_failure_never_propagates sampleConf sampleSite sampleEnvProbeFail
    noAlertErr (fun _ => some "smtp: authentication failed") dnsBreachTimes 200 "200 OK"

/-- C8: the scheduler dispatches once immediately on start, then exactly
once per tick arriving before the shutdown signal; events after the
shutdown contribute nothing — the loop terminates at the first shutdown
with no further dispatch. -/
theorem scheduler_initial_then_per_tick_until_shutdown
    (pre post : List SchedEvent) (h : SchedEvent.shutdown ∉ pre) :
    runMain (pre ++ SchedEvent.shutdown :: post) = 1 + pre.count SchedEvent.tick ∧
    runMain (pre ++ SchedEvent.shutdown :: post) = runMain (pre ++ [SchedEvent.shutdown]) := by
  have h1 := schedulerLoop_ticks pre post h
  have h2 := schedulerLoop_ticks pre [] h
  unfold runMain
  omega

/-- C8 witness: two ticks, a shutdown, and a post-shutdown tick. -/
theorem scheduler_initial_then_per_tick_until_shutdown_witness :
    runMain ([SchedEvent.tick, SchedEvent.tick] ++ SchedEvent.shutdown :: [SchedEvent.tick]) =
      1 + List.count SchedEvent.tick [SchedEvent.tick, SchedEvent.tick] ∧
    runMain ([SchedEvent.tick, SchedEvent.tick] ++ SchedEvent.shutdown :: [SchedEvent.tick]) =
      runMain ([SchedEvent.tick, SchedEvent.tick] ++ [SchedEvent.shutdown]) :=
  scheduler_initial_then_per_tick_until_shutdown
    [SchedEvent.tick, SchedEvent.tick] [SchedEvent.tick] (by decide)

/-- C9 counterexample: for a site with an empty recipients list whose
probe fails, the goroutine still calls `sendGmailAlert` — with the empty
recipients list — so alert delivery is not skipped, refuting the claim
that no send is attempted with an empty recipients list. -/
theorem empty_recipients_send_attempted :
    (processUnit sampleConf emptyRecipientsSite sampleEnvProbeFail).probed = true ∧
    (processUnit sampleConf emptyRecipientsSite sampleEnvProbeFail).sends =
      [⟨[], "http", "10.0.0.1", "HTTP error : status : 500 : 500 Internal Server Error"⟩] :=
  ⟨rfl, rfl⟩

/-- C9 (amended): a site with an empty recipients list is still probed
each tick, but on probe failure an alert send is attempted anyway, with
the empty recipients list; no guard skips delivery. -/
theorem empty_recipients_probed_and_send_attempted
    (conf : Config) (site : Site) (env : UnitEnv) (e : String)
    (hrec : site.recipients = [])
    (hres : env.resolveErr = none)
    (hp : env.probeErr = some e) :
    (processUnit conf site env).probed = true ∧
    (AlertEvent.mk [] site.protocol site.server e) ∈ (processUnit conf site env).sends := by
  cases hil : env.isLiteral <;> by_cases hr : conf.reportDNS <;>
    by_cases hd : env.resolveDurMs ≥ conf.resolverTimeoutMillis <;>
      simp [processUnit, probeStep, hil, hr, hd, hres, hp, hrec]

/-- C9 witness: the sample empty-recipients site with a failing
probe. -/
theorem empty_recipients_probed_and_send_attempted_witness :
    (processUnit sampleConf emptyRecipientsSite sampleEnvProbeFail).probed = true ∧
    (AlertEvent.mk [] emptyRecipientsSite.protocol emptyRecipientsSite.server
        "HTTP error : status : 500 : 500 Internal Server Error") ∈
      (processUnit sampleConf emptyRecipientsSite sampleEnvProbeFail).sends :=
  empty_recipients_probed_and_send_attempted sampleConf emptyRecipientsSite sampleEnvProbeFail
    "HTTP error : status : 500 : 500 Internal Server Error" rfl rfl rfl

/-- C10: for a site whose HTTP method is none of HEAD, GET or POST,
`checkHTTP` issues no request, and — `res` and `err` both still nil —
reaches `res.Body.Close()`, a nil-pointer dereference, instead of
returning a typed error. -/
theorem unknown_method_checkHTTP_nil_deref
    (site : Site) (net : Except String (Nat × String))
    (h1 : site.httpConfig.method ≠ "HEAD")
    (h2 : site.httpConfig.method ≠ "GET")
    (h3 : site.httpConfig.method ≠ "POST") :
    checkHTTP site net = ⟨false, CheckHTTPResult.nilDeref⟩ := by
  unfold checkHTTP
  split <;> simp_all

/-- C10 witness: a PUT-method site. -/
theorem unknown_method_checkHTTP_nil_deref_witness :
    checkHTTP putMethodSite (Except.ok (200, "200 OK")) =
      ⟨false, CheckHTTPResult.nilDeref⟩ :=
  unknown_method_checkHTTP_nil_deref putMethodSite (Except.ok (200, "200 OK"))
    (by decide) (by decide) (by decide)

end Heartbeat
